import Mathlib

/-!
Shallow embedding of `meme_fetcher.py` (Weekly Meme Fetcher).

Python strings are modelled by Lean `String` with all operations carried out
on the code-point list `String.data`, matching Python's code-point semantics
for `len`, slicing, `in`, `startswith`, `endswith`, `lower` and `replace`.

External effects are modelled as oracles:
  * the RSS provider is a function `parse : Nat → Except Unit (List Entry)`
    giving, per attempt number, either a raised exception or the parsed feed
    entries (`feedparser.parse` plus `feed.entries`);
  * the two regular-expression searches over an entry's HTML content and the
    score search are per-entry oracle fields (`imgSrcMatch`, `hrefImgMatch`,
    `scoreMatch`), holding the captured group when the search succeeds;
  * the Discord transport is a function `net : Nat → Bool` giving, per attempt
    number, whether the HTTP POST succeeds.

`time.sleep` calls are not performed but counted, so retry-pause claims are
statable.
-/

/-- Python `s.startswith(p)` on code-point lists: `listBeginsWith p.data s.data`. -/
def listBeginsWith : List Char → List Char → Bool
  | [], _ => true
  | _ :: _, [] => false
  | a :: as, b :: bs => a == b && listBeginsWith as bs

/-- Python substring containment `needle in hay` on code-point lists. -/
def containsSub (needle : List Char) : List Char → Bool
  | [] => listBeginsWith needle []
  | c :: rest => listBeginsWith needle (c :: rest) || containsSub needle rest

/-- Python `needle in hay` for strings. -/
def pyIn (needle hay : String) : Bool :=
  containsSub needle.data hay.data

/-- Python `s.endswith(t)`. -/
def strEndsWith (s t : String) : Bool :=
  listBeginsWith t.data.reverse s.data.reverse

/-- Python `s.lower()` (per code point, adequate for the URLs involved). -/
def lowerStr (s : String) : String :=
  String.mk (s.data.map Char.toLower)

/-- Python `s.replace(pat, rep)`: leftmost non-overlapping occurrences.
The `max pat.length 1` only guards termination; the program always calls it
with the non-empty pattern `&amp;`. -/
def replaceChars (pat rep : List Char) : List Char → List Char
  | [] => []
  | c :: rest =>
    if listBeginsWith pat (c :: rest) then
      rep ++ replaceChars pat rep ((c :: rest).drop (max pat.length 1))
    else
      c :: replaceChars pat rep rest
termination_by l => l.length
decreasing_by
  all_goals
    simp [List.length_drop]
    try omega

/-- Python `s.replace(pat, rep)` for strings. -/
def strReplace (s pat rep : String) : String :=
  String.mk (replaceChars pat.data rep.data s.data)

/-- Python truthiness of a value that is either `None` or a string. -/
def truthy : Option String → Bool
  | none => false
  | some s => !s.data.isEmpty

/-- `MAX_RETRIES = 3` (line 28). -/
def MAX_RETRIES : Nat := 3

/-- `RETRY_DELAY = 2` seconds (line 29); sleeps of this length are counted. -/
def RETRY_DELAY : Nat := 2

/-- One feedparser entry as observed by `fetch_memes_from_reddit`.
`mediaThumbnailUrl` is `entry.media_thumbnail[0]['url']` when the attribute
is present with a non-empty list, `content` is `entry.content[0].value` when
present, `entryId` is `entry.id` when present.  The three regex oracles hold
the captured group of the corresponding `re.search` over `content` when it
matches.  `failsExtraction` models an exception raised while handling this
entry (caught at line 117 and the entry skipped). -/
structure Entry where
  title : String
  link : String
  mediaThumbnailUrl : Option String
  content : Option String
  imgSrcMatch : Option String
  hrefImgMatch : Option String
  scoreMatch : Option String
  entryId : Option String
  failsExtraction : Bool
deriving DecidableEq

/-- One item of the list returned by `fetch_memes_from_reddit` (lines 110-115). -/
structure Meme where
  title : String
  image_url : String
  post_url : String
  score : String
deriving DecidableEq

/-- The extension list `['.jpg', '.jpeg', '.png', '.gif']` (lines 86, 97). -/
def imageExts : List String := [".jpg", ".jpeg", ".png", ".gif"]

/-- Lines 69-98: the image-URL extraction cascade for one entry. -/
def extractImageUrl (e : Entry) : Option String :=
  -- line 69: image_url = None; lines 72-73: media thumbnail
  let u1 : Option String :=
    match e.mediaThumbnailUrl with
    | some u => some u
    | none => none
  -- lines 76-93: scan the HTML content
  let u2 : Option String :=
    if truthy u1 then u1
    else
      match e.content with
      | none => u1
      | some c =>
        -- lines 79-87: <img ... src="..."> with extension and preview checks
        let uImg : Option String :=
          if pyIn "<img" c then
            match e.imgSrcMatch with
            | none => u1
            | some m =>
              let p := strReplace m "&amp;" "&"
              if (imageExts.any fun ext => pyIn ext (lowerStr p)) && pyIn "preview" p then
                some p
              else u1
          else u1
        -- lines 90-93: direct image hyperlink in the content
        if truthy uImg then uImg
        else
          match e.hrefImgMatch with
          | none => uImg
          | some m => some (strReplace m "&amp;" "&")
  -- lines 96-98: the entry id itself, when it ends in an image extension
  if truthy u2 then u2
  else
    match e.entryId with
    | none => u2
    | some i =>
      if imageExts.any (fun ext => strEndsWith (lowerStr i) ext) then some i else u2

/-- Lines 101-106: score extraction from the entry content, defaulting to `?`. -/
def scoreOf (e : Entry) : String :=
  match e.content with
  | none => "?"
  | some _ =>
    match e.scoreMatch with
    | some s => s
    | none => "?"

/-- Lines 64-119: handle one entry; `none` means the entry is skipped
(no image found at line 109, or an exception swallowed at line 117). -/
def processEntry (e : Entry) : Option Meme :=
  if e.failsExtraction then none
  else
    match extractImageUrl e with
    | none => none
    | some u =>
      if u.data.isEmpty then none
      else some ⟨e.title, u, e.link, scoreOf e⟩

/-- Lines 60-119: the entry loop, breaking once `limit` memes are collected. -/
def processEntries (limit : Nat) : List Entry → List Meme → List Meme
  | [], memes => memes
  | e :: es, memes =>
    if limit ≤ memes.length then memes
    else
      match processEntry e with
      | some m => processEntries limit es (memes ++ [m])
      | none => processEntries limit es memes

/-- Lines 50-130: the retry loop of `fetch_memes_from_reddit`.
Arguments: current attempt number, remaining attempts, memes so far.
Result: the returned meme list paired with the number of `time.sleep(RETRY_DELAY)`
calls performed.  An attempt either raises (`Except.error`), returns an empty
entry list (line 55: return immediately), or processes its entries and returns. -/
def fetchLoop (parse : Nat → Except Unit (List Entry)) (limit : Nat) :
    Nat → Nat → List Meme → List Meme × Nat
  | _, 0, memes => (memes, 0)
  | attempt, r + 1, memes =>
    match parse attempt with
    | Except.ok entries =>
      if entries.isEmpty then (memes, 0)
      else (processEntries limit entries memes, 0)
    | Except.error _ =>
      if r = 0 then (memes, 0)
      else
        let q := fetchLoop parse limit (attempt + 1) r memes
        (q.1, q.2 + 1)

/-- Lines 33-132: `fetch_memes_from_reddit(subreddit, limit)`, with the
provider abstracted into `parse`.  Returns the meme list and the retry-sleep
count. -/
def fetch_memes_from_reddit (parse : Nat → Except Unit (List Entry)) (limit : Nat) :
    List Meme × Nat :=
  fetchLoop parse limit 0 MAX_RETRIES []

/-- One Discord embed object (lines 155-161).  `title` and `footer` are kept
as code-point lists so that Python `len` is `List.length`. -/
structure Embed where
  title : List Char
  url : String
  imageUrl : String
  footer : List Char
  color : Nat
deriving DecidableEq

/-- Line 155-161: the embed built for the meme at 1-based position `i`. -/
def buildEmbed (i : Nat) (m : Meme) (color : Nat) : Embed :=
  { title := (toString i).data ++ ". ".data ++ m.title.data.take 250
    url := m.post_url
    imageUrl := m.image_url
    footer := "👍 ".data ++ m.score.data ++ " upvotes".data
    color := color }

/-- Lines 153-162: `for i, meme in enumerate(memes, 1)` building the embeds. -/
def buildEmbedsFrom (i : Nat) (color : Nat) : List Meme → List Embed
  | [] => []
  | m :: ms => buildEmbed i m color :: buildEmbedsFrom (i + 1) color ms

/-- The embed list of the Discord payload (lines 153-162). -/
def buildEmbeds (memes : List Meme) (color : Nat) : List Embed :=
  buildEmbedsFrom 1 color memes

/-- Lines 171-188: the Discord POST retry loop.  Result: success flag, number
of POSTs performed, number of `time.sleep(RETRY_DELAY)` calls. -/
def sendLoop (net : Nat → Bool) : Nat → Nat → Bool × Nat × Nat
  | _, 0 => (false, 0, 0)
  | attempt, r + 1 =>
    if net attempt then (true, 1, 0)
    else if r = 0 then (false, 1, 0)
    else
      let q := sendLoop net (attempt + 1) r
      (q.1, q.2.1 + 1, q.2.2 + 1)

/-- Outcome of `send_to_discord`: return value, POST count, retry-sleep count,
and the embeds of the payload that was (or would have been) sent. -/
structure SendResult where
  ok : Bool
  posts : Nat
  sleeps : Nat
  embeds : List Embed
deriving DecidableEq

/-- Lines 135-188: `send_to_discord(memes, webhook_url, title, color)` with the
transport abstracted into `net`.  An empty meme list returns `False` at line
150, before the payload is built and before any POST. -/
def send_to_discord (memes : List Meme) (webhook_url : String) (title : String)
    (color : Nat) (net : Nat → Bool) : SendResult :=
  if memes.isEmpty then ⟨false, 0, 0, []⟩
  else
    let q := sendLoop net 0 MAX_RETRIES
    ⟨q.1, q.2.1, q.2.2, buildEmbeds memes color⟩

/-- Line 207: the general-category subreddit list. -/
def generalSubreddits : List String := ["memes", "dankmemes", "ProgrammerHumor"]

/-- Line 229: the work-category subreddit list. -/
def workSubreddits : List String :=
  ["talesfromtechsupport", "iiiiiiitttttttttttt", "sysadmin", "techsupportgore", "ProgrammerHumor"]

/-- Lines 210-219: the general-category accumulation loop.  `fetchf s` is the
meme list returned by `fetch_memes_from_reddit(s, limit=5)`.  Returns the list
of subreddits actually queried and the accumulator; iteration breaks as soon
as the accumulator holds at least 5 memes (checked after each extend). -/
def generalLoop (fetchf : String → List Meme) : List String → List Meme → List String × List Meme
  | [], acc => ([], acc)
  | s :: ss, acc =>
    let acc2 := acc ++ fetchf s
    if 5 ≤ acc2.length then ([s], acc2)
    else
      let q := generalLoop fetchf ss acc2
      (s :: q.1, q.2)

/-- Lines 233-238: the work-category accumulation loop; every subreddit is
queried, with no early stop.  Returns queried subreddits and accumulator. -/
def workLoop (fetchf : String → List Meme) : List String → List Meme → List String × List Meme
  | [], acc => ([], acc)
  | s :: ss, acc =>
    let q := workLoop fetchf ss (acc ++ fetchf s)
    (s :: q.1, q.2)

/-- Line 255: the general-category message title. -/
def generalTitle : String := "🔥 **Top 5 Trending Memes This Week** 🔥"

/-- Line 265: the work-category message title. -/
def workTitle : String := "💻 **Top 5 Tech Support Memes** 💻"

/-- Per-subreddit fetch for the general category (line 211, `limit=5`). -/
def fetchGeneralOf (parseOf : String → Nat → Except Unit (List Entry)) : String → List Meme :=
  fun s => (fetch_memes_from_reddit (parseOf s) 5).1

/-- Per-subreddit fetch for the work category (line 234, `limit=2`). -/
def fetchWorkOf (parseOf : String → Nat → Except Unit (List Entry)) : String → List Meme :=
  fun s => (fetch_memes_from_reddit (parseOf s) 2).1

/-- Line 222: `top_general_memes = general_memes[:5]`. -/
def topGeneralOf (parseOf : String → Nat → Except Unit (List Entry)) : List Meme :=
  ((generalLoop (fetchGeneralOf parseOf) generalSubreddits []).2).take 5

/-- Line 241: `top_work_memes = work_memes[:5]`. -/
def topWorkOf (parseOf : String → Nat → Except Unit (List Entry)) : List Meme :=
  ((workLoop (fetchWorkOf parseOf) workSubreddits []).2).take 5

/-- Result of a run of `main`: the process exit code and the subreddits for
which a fetch was performed, in order. -/
structure MainResult where
  exitCode : Nat
  fetchedSources : List String
deriving DecidableEq

/-- Lines 191-275: `main()`.  `webhook` is `DISCORD_WEBHOOK_URL` (`none` when
the environment variable is unset), `parseOf` gives each subreddit's provider,
`netG`/`netW` are the transport oracles of the two `send_to_discord` calls. -/
def mainRun (webhook : Option String) (parseOf : String → Nat → Except Unit (List Entry))
    (netG netW : Nat → Bool) : MainResult :=
  match webhook with
  | none => ⟨1, []⟩
  | some url =>
    -- line 196: `if not DISCORD_WEBHOOK_URL` also rejects the empty string
    if url.data.isEmpty then ⟨1, []⟩
    -- line 201: webhook URL shape check
    else if !(listBeginsWith "https://discord.com/api/webhooks/".data url.data) then ⟨1, []⟩
    else
      let topGeneral := topGeneralOf parseOf
      let topWork := topWorkOf parseOf
      -- lines 250-257: general category is sent only when non-empty
      let successGeneral :=
        if topGeneral.isEmpty then false
        else (send_to_discord topGeneral url generalTitle 16734003 netG).ok
      -- lines 260-267: work category is sent only when non-empty
      let successWork :=
        if topWork.isEmpty then false
        else (send_to_discord topWork url workTitle 3447003 netW).ok
      -- lines 270-275: exit 0 iff at least one send succeeded
      ⟨if successGeneral || successWork then 0 else 1,
        (generalLoop (fetchGeneralOf parseOf) generalSubreddits []).1 ++
          (workLoop (fetchWorkOf parseOf) workSubreddits []).1⟩

/-- Spec-side predicate (for the claims, not from the code): the string ends in
a recognized image extension. -/
def specRecognizedExt (s : String) : Bool :=
  imageExts.any fun ext => strEndsWith s ext

/-- Spec-side function (for the claims, not from the code): a trailing `.gifv`
is rewritten to the same path ending `.gif`. -/
def specNormalizeGifv (s : String) : String :=
  if strEndsWith s ".gifv" then String.mk s.data.dropLast else s

/-! Concrete inputs used by counterexamples and witnesses. -/

/-- An entry whose media thumbnail URL carries no image extension. -/
def thumbEntryNoExt : Entry :=
  ⟨"funny", "https://reddit.com/post1", some "https://example.com/image",
    none, none, none, none, none, false⟩

/-- A provider returning `thumbEntryNoExt` on every attempt. -/
def parseThumbNoExt : Nat → Except Unit (List Entry) := fun _ => Except.ok [thumbEntryNoExt]

/-- The meme extracted from `thumbEntryNoExt`. -/
def memeNoExt : Meme := ⟨"funny", "https://example.com/image", "https://reddit.com/post1", "?"⟩

/-- An entry with a well-formed direct image thumbnail. -/
def goodEntry : Entry :=
  ⟨"cat", "https://reddit.com/post2", some "https://i.redd.it/cat.jpg",
    none, none, none, none, none, false⟩

/-- A provider returning `goodEntry` on every attempt. -/
def parseGood : Nat → Except Unit (List Entry) := fun _ => Except.ok [goodEntry]

/-- The meme extracted from `goodEntry`. -/
def goodMeme : Meme := ⟨"cat", "https://i.redd.it/cat.jpg", "https://reddit.com/post2", "?"⟩

/-- An entry whose media thumbnail URL ends in `.gifv`. -/
def gifvEntry : Entry :=
  ⟨"gif post", "https://reddit.com/post3", some "https://example.com/a.gifv",
    none, none, none, none, none, false⟩

/-- A provider returning `gifvEntry` on every attempt. -/
def parseGifv : Nat → Except Unit (List Entry) := fun _ => Except.ok [gifvEntry]

/-- The meme extracted from `gifvEntry`: its URL still ends in `.gifv`. -/
def gifvMeme : Meme := ⟨"gif post", "https://example.com/a.gifv", "https://reddit.com/post3", "?"⟩

/-- A second `.gifv` entry, used by the amended-claim witness. -/
def gifvEntry2 : Entry :=
  ⟨"gif2", "https://reddit.com/post4", some "https://example.com/b.gifv",
    none, none, none, none, none, false⟩

/-- A provider whose first attempt yields an empty entry list and whose later
attempts would succeed with `goodEntry`. -/
def emptyThenGoodParse : Nat → Except Unit (List Entry) :=
  fun a => if a = 0 then Except.ok [] else Except.ok [goodEntry]

/-- A provider returning an empty entry list on every attempt. -/
def alwaysEmptyParse : Nat → Except Unit (List Entry) := fun _ => Except.ok []

/-- A provider raising on every attempt. -/
def allErrorParse : Nat → Except Unit (List Entry) := fun _ => Except.error ()

/-- A provider raising on the first two attempts and succeeding on the third. -/
def failTwiceParse : Nat → Except Unit (List Entry) :=
  fun a => if a < 2 then Except.error () else Except.ok [goodEntry]

/-- A per-source fetch result of five memes, for the aggregation witnesses. -/
def fiveMemesFetch : String → List Meme :=
  fun _ => [goodMeme, goodMeme, goodMeme, goodMeme, goodMeme]

/-- A meme whose title is 250 characters long. -/
def longTitleMeme : Meme :=
  ⟨String.mk (List.replicate 250 'a'), "https://example.com/a.jpg", "https://reddit.com/post5", "100"⟩

/-- A short-titled meme for the embed-length witness. -/
def shortTitleMeme : Meme :=
  ⟨"hello", "https://example.com/h.jpg", "https://reddit.com/post6", "1"⟩

/-- A per-subreddit provider returning `goodEntry` everywhere, for `mainRun`. -/
def goodParseOf : String → Nat → Except Unit (List Entry) := fun _ _ => Except.ok [goodEntry]

/-- A well-formed Discord webhook URL. -/
def goodHook : String := "https://discord.com/api/webhooks/abc"

/-- A transport oracle that always succeeds. -/
def netUp : Nat → Bool := fun _ => true

/-- A transport oracle that always fails. -/
def netDown : Nat → Bool := fun _ => false

/-! Helper lemmas. -/

theorem fetchLoop_zero (parse : Nat → Except Unit (List Entry)) (limit attempt : Nat)
    (memes : List Meme) : fetchLoop parse limit attempt 0 memes = (memes, 0) := rfl

theorem fetchLoop_succ (parse : Nat → Except Unit (List Entry)) (limit attempt r : Nat)
    (memes : List Meme) :
    fetchLoop parse limit attempt (r + 1) memes =
      match parse attempt with
      | Except.ok entries =>
        if entries.isEmpty then (memes, 0)
        else (processEntries limit entries memes, 0)
      | Except.error _ =>
        if r = 0 then (memes, 0)
        else ((fetchLoop parse limit (attempt + 1) r memes).1,
              (fetchLoop parse limit (attempt + 1) r memes).2 + 1) := rfl

theorem processEntry_image_nonempty {e : Entry} {m : Meme} (h : processEntry e = some m) :
    m.image_url.data.isEmpty = false := by
  unfold processEntry at h
  by_cases hf : e.failsExtraction
  · simp [hf] at h
  · simp only [hf, if_false, Bool.false_eq_true] at h
    rcases hx : extractImageUrl e with _ | u
    · rw [hx] at h
      exact absurd h (by simp)
    · rw [hx] at h
      by_cases he : u.data.isEmpty
      · simp [he] at h
      · simp only [he, if_false, Bool.false_eq_true, Option.some.injEq] at h
        rw [← h]
        simpa using he

theorem processEntries_eq (limit : Nat) :
    ∀ (es : List Entry) (ms : List Meme),
      processEntries limit es ms = ms ++ (es.filterMap processEntry).take (limit - ms.length)
  | [], ms => by simp [processEntries]
  | e :: es, ms => by
    unfold processEntries
    by_cases hl : limit ≤ ms.length
    · rw [if_pos hl]
      have h0 : limit - ms.length = 0 := by omega
      simp [h0]
    · rw [if_neg hl]
      rcases hp : processEntry e with _ | m
      · show processEntries limit es ms = _
        rw [processEntries_eq limit es ms]
        simp [List.filterMap_cons, hp]
      · show processEntries limit es (ms ++ [m]) = _
        rw [processEntries_eq limit es (ms ++ [m])]
        have h1 : limit - ms.length = (limit - (ms ++ [m]).length) + 1 := by
          simp [List.length_append]
          omega
        simp only [List.filterMap_cons, hp, h1, List.take_succ_cons, List.append_assoc,
          List.singleton_append]

theorem fetchLoop_shape (parse : Nat → Except Unit (List Entry)) (limit : Nat) :
    ∀ (r attempt : Nat),
      (fetchLoop parse limit attempt r []).1 = [] ∨
      ∃ a es, parse a = Except.ok es ∧
        (fetchLoop parse limit attempt r []).1 = (es.filterMap processEntry).take limit
  | 0, _ => Or.inl rfl
  | r + 1, attempt => by
    rw [fetchLoop_succ]
    rcases hp : parse attempt with _ | es
    · by_cases hr : r = 0
      · simp [hr]
      · simp only [hr, if_false]
        exact fetchLoop_shape parse limit r (attempt + 1)
    · by_cases he : es.isEmpty
      · simp [he]
      · simp only [he, if_false, Bool.false_eq_true]
        exact Or.inr ⟨attempt, es, hp, by rw [processEntries_eq]; simp⟩

theorem fetch_mem_processEntry (parse : Nat → Except Unit (List Entry)) (limit : Nat)
    {m : Meme} (h : m ∈ (fetch_memes_from_reddit parse limit).1) :
    ∃ e, processEntry e = some m := by
  have hs := fetchLoop_shape parse limit MAX_RETRIES 0
  rw [fetch_memes_from_reddit] at h
  rcases hs with hs | ⟨a, es, _, hs⟩
  · rw [hs] at h
    simp at h
  · rw [hs] at h
    have hm := List.take_subset _ _ h
    rcases List.mem_filterMap.mp hm with ⟨e, _, he⟩
    exact ⟨e, he⟩

theorem generalLoop_take (f : String → List Meme) :
    ∀ (ss : List String) (acc : List Meme),
      ((generalLoop f ss acc).2).take 5 = (acc ++ (ss.map f).flatten).take 5
  | [], acc => by simp [generalLoop]
  | s :: ss, acc => by
    unfold generalLoop
    by_cases h5 : 5 ≤ (acc ++ f s).length
    · rw [if_pos h5]
      simp only [List.map_cons, List.flatten_cons, ← List.append_assoc]
      exact (List.take_append_of_le_length h5).symm
    · rw [if_neg h5]
      show ((generalLoop f ss (acc ++ f s)).2).take 5 = _
      rw [generalLoop_take f ss (acc ++ f s)]
      simp [List.append_assoc]

theorem generalLoop_stop (f : String → List Meme) (s : String) (ss2 : List String) :
    ∀ (ss1 : List String) (acc : List Meme),
      5 ≤ (acc ++ ((ss1 ++ [s]).map f).flatten).length →
      generalLoop f (ss1 ++ s :: ss2) acc = generalLoop f (ss1 ++ [s]) acc
  | [], acc => by
    intro h
    have h5 : 5 ≤ (acc ++ f s).length := by simpa using h
    show generalLoop f (s :: ss2) acc = generalLoop f [s] acc
    unfold generalLoop
    rw [if_pos h5, if_pos h5]
  | x :: xs, acc => by
    intro h
    show generalLoop f (x :: (xs ++ s :: ss2)) acc = generalLoop f (x :: (xs ++ [s])) acc
    unfold generalLoop
    by_cases h5 : 5 ≤ (acc ++ f x).length
    · rw [if_pos h5, if_pos h5]
    · rw [if_neg h5, if_neg h5]
      have hlen : 5 ≤ ((acc ++ f x) ++ ((xs ++ [s]).map f).flatten).length := by
        simp only [List.cons_append, List.map_cons, List.flatten_cons] at h
        simp only [List.length_append] at h ⊢
        omega
      rw [generalLoop_stop f s ss2 xs (acc ++ f x) hlen]

theorem workLoop_char (f : String → List Meme) :
    ∀ (ss : List String) (acc : List Meme),
      (workLoop f ss acc).1 = ss ∧ (workLoop f ss acc).2 = acc ++ (ss.map f).flatten
  | [], acc => by simp [workLoop]
  | s :: ss, acc => by
    have h := workLoop_char f ss (acc ++ f s)
    unfold workLoop
    constructor
    · show s :: (workLoop f ss (acc ++ f s)).1 = s :: ss
      rw [h.1]
    · show (workLoop f ss (acc ++ f s)).2 = _
      rw [h.2]
      simp [List.append_assoc]

theorem buildEmbed_title_le (i : Nat) (m : Meme) (color : Nat)
    (hi : (toString i).data.length = 1) :
    (buildEmbed i m color).title.length ≤ 253 := by
  show ((toString i).data ++ ". ".data ++ m.title.data.take 250).length ≤ 253
  rw [List.length_append, List.length_append, hi, List.length_take]
  have h2 : (". ".data).length = 2 := by decide
  have h3 := Nat.min_le_left 250 m.title.data.length
  omega

theorem toString_len_one (n : Nat) (h1 : 1 ≤ n) (h5 : n ≤ 5) :
    (toString n).data.length = 1 := by
  interval_cases n <;> decide

theorem mem_buildEmbedsFrom (c : Nat) :
    ∀ (ms : List Meme) (i : Nat) (e : Embed), e ∈ buildEmbedsFrom i c ms →
      ∃ j m, j < ms.length ∧ e = buildEmbed (i + j) m c
  | [], i, e => by simp [buildEmbedsFrom]
  | m :: ms, i, e => by
    simp only [buildEmbedsFrom, List.mem_cons]
    rintro (rfl | h)
    · exact ⟨0, m, by simp, by simp⟩
    · rcases mem_buildEmbedsFrom c ms (i + 1) e h with ⟨j, m', hj, he⟩
      refine ⟨j + 1, m', by simpa using Nat.succ_lt_succ hj, ?_⟩
      rw [he, Nat.add_assoc, Nat.add_comm 1 j]

theorem exit_iff (tg tw : List Meme) (okG okW : Bool) :
    ((if (if tg.isEmpty then false else okG) || (if tw.isEmpty then false else okW)
        then (0 : Nat) else 1) = 0 ↔
      (tg ≠ [] ∧ okG = true) ∨ (tw ≠ [] ∧ okW = true)) ∧
    ((if (if tg.isEmpty then false else okG) || (if tw.isEmpty then false else okW)
        then (0 : Nat) else 1) = 1 ↔
      ¬ ((tg ≠ [] ∧ okG = true) ∨ (tw ≠ [] ∧ okW = true))) := by
  rcases tg with _ | ⟨a, tg⟩ <;> rcases tw with _ | ⟨b, tw⟩ <;> cases okG <;> cases okW <;> simp

/-! Claim theorems. -/

/-- C1, counterexample: an entry whose media thumbnail URL is
`https://example.com/image` is admitted by the fetch, yet that `image_url`
does not end in a recognized image extension even after `.gifv`
normalization — the thumbnail branch (lines 72-73) applies no extension
check, so the claimed invariant fails. -/
theorem C1_counterexample :
    (fetch_memes_from_reddit parseThumbNoExt 5).1 = [memeNoExt] ∧
      specRecognizedExt (specNormalizeGifv memeNoExt.image_url) = false :=
  ⟨by decide, by decide⟩

/-- C1, amended: every item returned by `fetch_memes_from_reddit` has a
non-empty `image_url` (the admission check at line 109 requires truthiness),
but no guarantee about its extension holds. -/
theorem C1_theorem (parse : Nat → Except Unit (List Entry)) (limit : Nat) (m : Meme)
    (h : m ∈ (fetch_memes_from_reddit parse limit).1) :
    m.image_url.data.isEmpty = false := by
  rcases fetch_mem_processEntry parse limit h with ⟨e, he⟩
  exact processEntry_image_nonempty he

/-- Witness for `C1_theorem` at a concrete provider. -/
theorem C1_witness :
    goodMeme ∈ (fetch_memes_from_reddit parseGood 5).1 ∧
      goodMeme.image_url.data.isEmpty = false :=
  ⟨by decide, C1_theorem parseGood 5 goodMeme (by decide)⟩

/-- C2, counterexample: an entry whose thumbnail URL ends in `.gifv` appears
in the output with that URL unchanged — the code performs no `.gifv` → `.gif`
rewriting anywhere, so an output item's `image_url` can end in `.gifv`. -/
theorem C2_counterexample :
    ((fetch_memes_from_reddit parseGifv 5).1.map Meme.image_url) =
        ["https://example.com/a.gifv"] ∧
      strEndsWith "https://example.com/a.gifv" ".gifv" = true :=
  ⟨by decide, by decide⟩

/-- C2, amended: a truthy media-thumbnail URL is admitted verbatim, with no
normalization of any kind (in particular a `.gifv` suffix survives). -/
theorem C2_theorem (e : Entry) (u : String) (hf : e.failsExtraction = false)
    (ht : e.mediaThumbnailUrl = some u) (hu : u.data.isEmpty = false) :
    processEntry e = some ⟨e.title, u, e.link, scoreOf e⟩ := by
  have hx : extractImageUrl e = some u := by
    unfold extractImageUrl
    rw [ht]
    simp [truthy, hu]
  simp [processEntry, hf, hx, hu]

/-- Witness for `C2_theorem` at a concrete `.gifv` entry. -/
theorem C2_witness :
    processEntry gifvEntry2 =
      some ⟨"gif2", "https://example.com/b.gifv", "https://reddit.com/post4", "?"⟩ :=
  C2_theorem gifvEntry2 "https://example.com/b.gifv" rfl rfl (by decide)

/-- C3: `fetch_memes_from_reddit` returns at most `limit` items, and the
returned list is the order-preserving extraction (a `filterMap` followed by a
`take`) of the entries of one successful attempt, so items appear in
provider-supplied order. -/
theorem C3_theorem (parse : Nat → Except Unit (List Entry)) (limit : Nat) :
    (fetch_memes_from_reddit parse limit).1.length ≤ limit ∧
      ((fetch_memes_from_reddit parse limit).1 = [] ∨
        ∃ a es, parse a = Except.ok es ∧
          (fetch_memes_from_reddit parse limit).1 = (es.filterMap processEntry).take limit) := by
  have hs := fetchLoop_shape parse limit MAX_RETRIES 0
  constructor
  · rcases hs with hs | ⟨a, es, _, hs⟩
    · show (fetchLoop parse limit 0 MAX_RETRIES []).1.length ≤ limit
      rw [hs]
      simp
    · show (fetchLoop parse limit 0 MAX_RETRIES []).1.length ≤ limit
      rw [hs, List.length_take]
      exact Nat.min_le_left _ _
  · exact hs

/-- C4, counterexample: a provider that yields an empty entry list on the
first attempt (and items afterwards) is not retried: the fetch returns the
empty list with zero retry sleeps (line 57 returns immediately), not the
third attempt's items after two pauses. -/
theorem C4_counterexample :
    fetch_memes_from_reddit emptyThenGoodParse 5 = ([], 0) ∧
      fetch_memes_from_reddit emptyThenGoodParse 5 ≠ ([goodMeme], 2) :=
  ⟨by decide, by decide⟩

/-- C4, amended: an empty provider result terminates the fetch immediately
with no retry and no pause; only raised exceptions count as failed attempts,
each followed by a 2-second pause except after the final attempt, so a
provider raising on the first two attempts and succeeding with entries on the
third yields the third attempt's items after exactly two pauses. -/
theorem C4_theorem (parse : Nat → Except Unit (List Entry)) (limit : Nat) :
    (parse 0 = Except.ok [] → fetch_memes_from_reddit parse limit = ([], 0)) ∧
    (∀ es, parse 0 = Except.error () → parse 1 = Except.error () →
      parse 2 = Except.ok es → es.isEmpty = false →
      fetch_memes_from_reddit parse limit = ((es.filterMap processEntry).take limit, 2)) := by
  constructor
  · intro h0
    show fetchLoop parse limit 0 3 [] = ([], 0)
    rw [show (3 : Nat) = 2 + 1 from rfl, fetchLoop_succ, h0]
    rfl
  · intro es h0 h1 h2 hne
    have e2 : fetchLoop parse limit 2 1 [] = ((es.filterMap processEntry).take limit, 0) := by
      rw [show (1 : Nat) = 0 + 1 from rfl, fetchLoop_succ, h2]
      simp only [hne, Bool.false_eq_true, if_false]
      rw [processEntries_eq]
      simp
    have e1 : fetchLoop parse limit 1 2 [] = ((es.filterMap processEntry).take limit, 1) := by
      rw [show (2 : Nat) = 1 + 1 from rfl, fetchLoop_succ, h1]
      simp [e2]
    show fetchLoop parse limit 0 3 [] = _
    rw [show (3 : Nat) = 2 + 1 from rfl, fetchLoop_succ, h0]
    simp [e1]

/-- Witness for `C4_theorem`: an always-empty provider returns immediately,
and a provider raising twice then succeeding yields the third attempt's items
after two pauses. -/
theorem C4_witness :
    fetch_memes_from_reddit alwaysEmptyParse 5 = ([], 0) ∧
      fetch_memes_from_reddit failTwiceParse 5 =
        (([goodEntry].filterMap processEntry).take 5, 2) :=
  ⟨(C4_theorem alwaysEmptyParse 5).1 rfl,
   (C4_theorem failTwiceParse 5).2 [goodEntry] rfl rfl rfl rfl⟩

/-- C5: the fetch is a total function (it never raises past its boundary in
the model), and a provider raising on all `MAX_RETRIES` attempts yields the
empty list (what was collected so far) after the two inter-attempt pauses. -/
theorem C5_theorem (parse : Nat → Except Unit (List Entry)) (limit : Nat)
    (h : ∀ a, a < MAX_RETRIES → parse a = Except.error ()) :
    fetch_memes_from_reddit parse limit = ([], 2) := by
  have h0 := h 0 (by decide)
  have h1 := h 1 (by decide)
  have h2 := h 2 (by decide)
  have e2 : fetchLoop parse limit 2 1 [] = ([], 0) := by
    rw [show (1 : Nat) = 0 + 1 from rfl, fetchLoop_succ, h2]
    rfl
  have e1 : fetchLoop parse limit 1 2 [] = ([], 1) := by
    rw [show (2 : Nat) = 1 + 1 from rfl, fetchLoop_succ, h1]
    simp [e2]
  show fetchLoop parse limit 0 3 [] = ([], 2)
  rw [show (3 : Nat) = 2 + 1 from rfl, fetchLoop_succ, h0]
  simp [e1]

/-- Witness for `C5_theorem` at the always-raising provider. -/
theorem C5_witness : fetch_memes_from_reddit allErrorParse 5 = ([], 2) :=
  C5_theorem allErrorParse 5 (fun _ _ => rfl)

/-- C6: under the early-stop policy (general category), the final batch is the
first 5 items in source-then-entry accumulation order (shorter if fewer), and
as soon as a source pushes the accumulator to at least 5 items no further
source is consulted. -/
theorem C6_theorem (f : String → List Meme) (ss : List String) :
    ((generalLoop f ss []).2).take 5 = ((ss.map f).flatten).take 5 ∧
      ∀ ss1 s ss2, ss = ss1 ++ s :: ss2 →
        5 ≤ (((ss1 ++ [s]).map f).flatten).length →
        generalLoop f ss [] = generalLoop f (ss1 ++ [s]) [] := by
  constructor
  · have h := generalLoop_take f ss []
    simpa using h
  · rintro ss1 s ss2 rfl h5
    exact generalLoop_stop f s ss2 ss1 [] (by simpa using h5)

/-- Witness for `C6_theorem`: a first source returning 5 items stops the
iteration before the second source. -/
theorem C6_witness :
    ((generalLoop fiveMemesFetch ["memes", "dankmemes"] []).2).take 5 =
        (((["memes", "dankmemes"]).map fiveMemesFetch).flatten).take 5 ∧
      generalLoop fiveMemesFetch ["memes", "dankmemes"] [] =
        generalLoop fiveMemesFetch ["memes"] [] := by
  have h := C6_theorem fiveMemesFetch ["memes", "dankmemes"]
  exact ⟨h.1, h.2 [] "memes" ["dankmemes"] rfl (by decide)⟩

/-- C7: under the exhaustive policy (work category), every configured source
is queried (the queried list equals the full source list) even after the
accumulator reaches 5, and the batch is still the first 5 items of the full
accumulation. -/
theorem C7_theorem (f : String → List Meme) (ss : List String) :
    (workLoop f ss []).1 = ss ∧
      (workLoop f ss []).2 = (ss.map f).flatten ∧
      ((workLoop f ss []).2).take 5 = ((ss.map f).flatten).take 5 := by
  have h := workLoop_char f ss []
  refine ⟨h.1, by simpa using h.2, ?_⟩
  rw [h.2]
  simp

/-- C8, counterexample: for a title of 250 characters at position 1, the embed
title built at line 156 is `1. ` followed by the truncated title — 253
characters, exceeding the claimed 250-character bound. -/
theorem C8_counterexample :
    ((buildEmbeds [longTitleMeme] 16734003).map fun e => e.title.length) = [253] ∧
      ¬ (253 ≤ 250) := by
  constructor
  · have hd : longTitleMeme.title.data = List.replicate 250 'a' := rfl
    have h1 : (toString (1 : Nat)).data.length = 1 := by decide
    have h2 : (". ".data).length = 2 := by decide
    show [((toString 1).data ++ ". ".data ++ longTitleMeme.title.data.take 250).length] = [253]
    rw [List.length_append, List.length_append, h1, h2, hd, List.length_take,
      List.length_replicate]
    norm_num
  · decide

/-- C8, amended: the embed title is the 1-based position, `. `, and the item
title truncated to 250 characters; for batches of at most 5 items (as the
program always sends) its length is at most 253, within Discord's
256-character limit noted at line 156. -/
theorem C8_theorem (memes : List Meme) (color : Nat) (hlen : memes.length ≤ 5) :
    ∀ e ∈ buildEmbeds memes color, e.title.length ≤ 253 := by
  intro e he
  rcases mem_buildEmbedsFrom color memes 1 e he with ⟨j, m, hj, rfl⟩
  exact buildEmbed_title_le _ _ _ (toString_len_one (1 + j) (by omega) (by omega))

/-- Witness for `C8_theorem` at a one-item batch. -/
theorem C8_witness :
    buildEmbed 1 shortTitleMeme 16734003 ∈ buildEmbeds [shortTitleMeme] 16734003 ∧
      (buildEmbed 1 shortTitleMeme 16734003).title.length ≤ 253 :=
  ⟨by decide, C8_theorem [shortTitleMeme] 16734003 (by decide) _ (by decide)⟩

/-- C9: with a missing or malformed webhook the run exits 1 having fetched
nothing; with a valid webhook the exit code is 0 exactly when at least one
category produced a non-empty batch whose Discord delivery succeeded, and 1
exactly when every category failed to deliver. -/
theorem C9_theorem (webhook : Option String) (parseOf : String → Nat → Except Unit (List Entry))
    (netG netW : Nat → Bool) :
    (webhook = none → mainRun webhook parseOf netG netW = ⟨1, []⟩) ∧
    (∀ url, webhook = some url →
      (url.data.isEmpty = true ∨
        listBeginsWith "https://discord.com/api/webhooks/".data url.data = false) →
      mainRun webhook parseOf netG netW = ⟨1, []⟩) ∧
    (∀ url, webhook = some url → url.data.isEmpty = false →
      listBeginsWith "https://discord.com/api/webhooks/".data url.data = true →
      (((mainRun webhook parseOf netG netW).exitCode = 0 ↔
          (topGeneralOf parseOf ≠ [] ∧
            (send_to_discord (topGeneralOf parseOf) url generalTitle 16734003 netG).ok = true) ∨
          (topWorkOf parseOf ≠ [] ∧
            (send_to_discord (topWorkOf parseOf) url workTitle 3447003 netW).ok = true)) ∧
        ((mainRun webhook parseOf netG netW).exitCode = 1 ↔
          ¬ ((topGeneralOf parseOf ≠ [] ∧
            (send_to_discord (topGeneralOf parseOf) url generalTitle 16734003 netG).ok = true) ∨
          (topWorkOf parseOf ≠ [] ∧
            (send_to_discord (topWorkOf parseOf) url workTitle 3447003 netW).ok = true))))) := by
  refine ⟨?_, ?_, ?_⟩
  · rintro rfl
    rfl
  · rintro url rfl h
    rcases h with h | h
    · simp [mainRun, h]
    · by_cases he : url.data.isEmpty
      · simp [mainRun, he]
      · simp [mainRun, he, h]
  · rintro url rfl he hb
    have hm : mainRun (some url) parseOf netG netW =
        ⟨if (if (topGeneralOf parseOf).isEmpty then false
              else (send_to_discord (topGeneralOf parseOf) url generalTitle 16734003 netG).ok) ||
             (if (topWorkOf parseOf).isEmpty then false
              else (send_to_discord (topWorkOf parseOf) url workTitle 3447003 netW).ok)
          then 0 else 1,
          (generalLoop (fetchGeneralOf parseOf) generalSubreddits []).1 ++
            (workLoop (fetchWorkOf parseOf) workSubreddits []).1⟩ := by
      simp [mainRun, he, hb]
    rw [hm]
    exact exit_iff (topGeneralOf parseOf) (topWorkOf parseOf) _ _

/-- Witness for `C9_theorem`: a missing webhook and a malformed webhook both
exit 1 with no fetch; a valid webhook with a working general delivery exits 0. -/
theorem C9_witness :
    mainRun none goodParseOf netUp netDown = ⟨1, []⟩ ∧
    mainRun (some "http://evil") goodParseOf netUp netDown = ⟨1, []⟩ ∧
    (mainRun (some goodHook) goodParseOf netUp netDown).exitCode = 0 :=
  ⟨(C9_theorem none goodParseOf netUp netDown).1 rfl,
   (C9_theorem (some "http://evil") goodParseOf netUp netDown).2.1 "http://evil" rfl
     (Or.inr (by decide)),
   (((C9_theorem (some goodHook) goodParseOf netUp netDown).2.2 goodHook rfl (by decide)
       (by decide)).1).mpr (Or.inl ⟨by decide, by decide⟩)⟩

/-- C10: `send_to_discord` on an empty batch returns `False` with zero POST
attempts, zero retry sleeps and no payload built, for every webhook URL,
title, color and transport behaviour. -/
theorem C10_theorem (webhook_url title : String) (color : Nat) (net : Nat → Bool) :
    send_to_discord [] webhook_url title color net = ⟨false, 0, 0, []⟩ := rfl
